import Mathlib

/-!
# Verification of the Inkcore content-generation service's memory subsystem

Shallow embedding of the repository's core components:

* `app/services/memory.py` — the memory service (`save_document`, `add`,
  `query`) over a Chroma vector-store collection, with the deterministic
  SHA-256-based fallback embedding `_simple_text_to_vector`;
* `app/services/analyzer.py` — the style analyzer `_analyze`;
* `app/routes/generate.py` — the blog/social generation routes, with the
  per-user, per-channel bounded conversation histories.

Machine integers are modelled as `Nat` with explicit `% 2 ^ 32` where the
source's 32-bit arithmetic overflows; floating-point quantities are modelled
over `ℝ` (exact arithmetic); Python `dict`s with a known key set are modelled
as structures whose absent keys are `Option.none`; fallible paths are modelled
with `Option`.
-/

/-! ## SHA-256 (the digest used by `_simple_text_to_vector` via `hashlib.sha256`)

All words are `Nat` reduced mod `2 ^ 32`; messages and digests are lists of
byte values (`Nat < 256`). -/

/-- Truncation to 32 bits. -/
def w32 (x : Nat) : Nat := x % 4294967296

/-- Addition modulo `2 ^ 32`. -/
def wadd (a b : Nat) : Nat := (a + b) % 4294967296

/-- Right rotation of a 32-bit word by `n` places (`0 < n < 32` at call sites). -/
def rotr (n x : Nat) : Nat := ((x >>> n) ||| (x <<< (32 - n))) % 4294967296

/-- The SHA-256 choice function `Ch(x,y,z) = (x ∧ y) ⊕ (¬x ∧ z)`; `¬x` is `x ⊕ 4294967295` on 32 bits. -/
def shaCh (x y z : Nat) : Nat := (x &&& y) ^^^ ((x ^^^ 4294967295) &&& z)

/-- The SHA-256 majority function `Maj(x,y,z)`. -/
def shaMaj (x y z : Nat) : Nat := (x &&& y) ^^^ (x &&& z) ^^^ (y &&& z)

/-- The SHA-256 function `Σ₀`. -/
def bigSigma0 (x : Nat) : Nat := rotr 2 x ^^^ rotr 13 x ^^^ rotr 22 x

/-- The SHA-256 function `Σ₁`. -/
def bigSigma1 (x : Nat) : Nat := rotr 6 x ^^^ rotr 11 x ^^^ rotr 25 x

/-- The SHA-256 function `σ₀`. -/
def smallSigma0 (x : Nat) : Nat := rotr 7 x ^^^ rotr 18 x ^^^ (x >>> 3)

/-- The SHA-256 function `σ₁`. -/
def smallSigma1 (x : Nat) : Nat := rotr 17 x ^^^ rotr 19 x ^^^ (x >>> 10)

/-- The 64 SHA-256 round constants. -/
def shaK : List Nat :=
  [1116352408, 1899447441, 3049323471, 3921009573, 961987163, 1508970993,
   2453635748, 2870763221, 3624381080, 310598401, 607225278, 1426881987,
   1925078388, 2162078206, 2614888103, 3248222580, 3835390401, 4022224774,
   264347078, 604807628, 770255983, 1249150122, 1555081692, 1996064986,
   2554220882, 2821834349, 2952996808, 3210313671, 3336571891, 3584528711,
   113926993, 338241895, 666307205, 773529912, 1294757372, 1396182291,
   1695183700, 1986661051, 2177026350, 2456956037, 2730485921, 2820302411,
   3259730800, 3345764771, 3516065817, 3600352804, 4094571909, 275423344,
   430227734, 506948616, 659060556, 883997877, 958139571, 1322822218,
   1537002063, 1747873779, 1955562222, 2024104815, 2227730452, 2361852424,
   2428436474, 2756734187, 3204031479, 3329325298]

/-- The SHA-256 working state: eight 32-bit words. -/
structure ShaState where
  a : Nat
  b : Nat
  c : Nat
  d : Nat
  e : Nat
  f : Nat
  g : Nat
  h : Nat
deriving Repr, DecidableEq

/-- The SHA-256 initial hash value. -/
def shaH0 : ShaState :=
  ⟨1779033703, 3144134277, 1013904242, 2773480762,
   1359893119, 2600822924, 528734635, 1541459225⟩

/-- The SHA-256 padding: append `128`, zero bytes to 56 mod 64, then the 64-bit
big-endian bit length of the message. -/
def shaPad (msg : List Nat) : List Nat :=
  let L := msg.length
  let k := (64 + 55 - L % 64) % 64
  let bitLen := 8 * L
  msg ++ [128] ++ List.replicate k 0 ++
    (List.range 8).map (fun i => (bitLen >>> (8 * (7 - i))) % 256)

/-- Split a byte list into 64-byte chunks (`n` is the chunk-count fuel). -/
def shaChunksGo : Nat → List Nat → List (List Nat)
  | 0, _ => []
  | n + 1, l => l.take 64 :: shaChunksGo n (l.drop 64)

/-- The 64-byte chunks of a padded message. -/
def shaChunks (l : List Nat) : List (List Nat) := shaChunksGo (l.length / 64) l

/-- The first 16 big-endian 32-bit words of a 64-byte chunk. -/
def shaWords16 (chunk : List Nat) : List Nat :=
  (List.range 16).map fun j =>
    (chunk.getD (4 * j) 0) <<< 24 ||| (chunk.getD (4 * j + 1) 0) <<< 16 |||
    (chunk.getD (4 * j + 2) 0) <<< 8 ||| chunk.getD (4 * j + 3) 0

/-- Extend the message schedule by `n` further words
(`W[i] = σ₁(W[i-2]) + W[i-7] + σ₀(W[i-15]) + W[i-16] mod 2³²`). -/
def shaSchedGo : Nat → List Nat → List Nat
  | 0, w => w
  | n + 1, w =>
    let i := w.length
    let next := (smallSigma1 (w.getD (i - 2) 0) + w.getD (i - 7) 0 +
                 smallSigma0 (w.getD (i - 15) 0) + w.getD (i - 16) 0) % 4294967296
    shaSchedGo n (w ++ [next])

/-- The full 64-word message schedule of a chunk. -/
def shaSchedule (chunk : List Nat) : List Nat := shaSchedGo 48 (shaWords16 chunk)

/-- One SHA-256 compression round, consuming a `(Kᵢ, Wᵢ)` pair. -/
def shaRound (st : ShaState) (kw : Nat × Nat) : ShaState :=
  let t1 := (st.h + bigSigma1 st.e + shaCh st.e st.f st.g + kw.1 + kw.2) % 4294967296
  let t2 := (bigSigma0 st.a + shaMaj st.a st.b st.c) % 4294967296
  ⟨(t1 + t2) % 4294967296, st.a, st.b, st.c, (st.d + t1) % 4294967296, st.e, st.f, st.g⟩

/-- Compress one 64-byte chunk into the running hash state. -/
def shaCompress (st : ShaState) (chunk : List Nat) : ShaState :=
  let w := shaSchedule chunk
  let r := (shaK.zip w).foldl shaRound st
  ⟨wadd st.a r.a, wadd st.b r.b, wadd st.c r.c, wadd st.d r.d,
   wadd st.e r.e, wadd st.f r.f, wadd st.g r.g, wadd st.h r.h⟩

/-- The four big-endian bytes of a 32-bit word. -/
def wordBytes (x : Nat) : List Nat :=
  [(x >>> 24) % 256, (x >>> 16) % 256, (x >>> 8) % 256, x % 256]

/-- The SHA-256 digest of a byte list, as the 32-byte digest
(the semantics of Python's `hashlib.sha256(...).digest()`). -/
def sha256Bytes (msg : List Nat) : List Nat :=
  let st := (shaChunks (shaPad msg)).foldl shaCompress shaH0
  wordBytes st.a ++ wordBytes st.b ++ wordBytes st.c ++ wordBytes st.d ++
  wordBytes st.e ++ wordBytes st.f ++ wordBytes st.g ++ wordBytes st.h

/-- The UTF-8 encoding of one character (by code point). -/
def utf8Char (c : Char) : List Nat :=
  let n := c.toNat
  if n < 128 then [n]
  else if n < 2048 then [192 + n / 64, 128 + n % 64]
  else if n < 65536 then [224 + n / 4096, 128 + (n / 64) % 64, 128 + n % 64]
  else [240 + n / 262144, 128 + (n / 4096) % 64, 128 + (n / 64) % 64, 128 + n % 64]

/-- The UTF-8 encoding of a string (the semantics of Python's `text.encode("utf-8")`). -/
def utf8Encode (s : String) : List Nat := (s.data.map utf8Char).flatten

/-! ## The memory service (`app/services/memory.py`)

The Chroma collection is modelled as a list of records; the lazily-initialized
persistent client and the thread dispatch (`asyncio.to_thread`) are identity
from the caller's point of view and are not modelled.  `uuid.uuid4()` is
modelled by a `freshId` parameter supplied by the environment. -/

namespace memory

/-- The integer byte sequence underlying `_simple_text_to_vector`: the SHA-256
digest of the UTF-8 encoded text, tiled (`np.tile(arr, reps)[:dim]` with
`reps = ceil(dim / arr.size)`) to length `dim`. -/
def tiledDigest (text : String) (dim : Nat := 1536) : List Nat :=
  let arr := sha256Bytes (utf8Encode text)
  if arr.length < dim then
    ((List.replicate ((dim + arr.length - 1) / arr.length) arr).flatten).take dim
  else arr.take dim

/-- Sum of squares of a byte list — the square of `np.linalg.norm(arr)` for the
integer-valued `arr`. -/
def sumSq (l : List Nat) : Nat := (l.map fun b => b * b).sum

/-- Function `_simple_text_to_vector(text, dim=1536)`: hash the text with SHA-256, tile
the digest bytes to length `dim`, and divide by `np.linalg.norm(arr) + 1e-8`.
The float32/float64 arithmetic of the source is modelled exactly over `ℝ`. -/
noncomputable def _simple_text_to_vector (text : String) (dim : Nat := 1536) : List ℝ :=
  let arr := tiledDigest text dim
  arr.map fun b : Nat => (b : ℝ) / (Real.sqrt (sumSq arr) + 1e-8)

/-- A record of the Chroma collection: Chroma stores the document text, its
metadata (string-keyed mapping, modelled with string values as used by this
app), its id, and its embedding vector. -/
structure ChromaDoc where
  id : String
  content : String
  metadata : List (String × String)
  embedding : List ℝ

/-- The Chroma `Collection.add` operation: appends new records; an id already present in
the collection is not replaced (Chroma's documented duplicate-id behaviour for
`add` — as opposed to `upsert` — is to keep the existing record, warning about
or rejecting the duplicate insert). -/
def collectionAdd (coll : List ChromaDoc) (d : ChromaDoc) : List ChromaDoc :=
  if coll.any fun e => e.id == d.id then coll else coll ++ [d]

/-- Function `save_document(id, content, metadata=None, embed=None)`: auto-generate the
id when absent (`uuid.uuid4()`, modelled by `freshId`), default the metadata to
`{}`, compute the fallback embedding when `embed` is absent, and `add` the
record to the collection.  Returns the updated collection and the returned id. -/
noncomputable def save_document (coll : List ChromaDoc) (id : Option String)
    (content : String) (metadata : Option (List (String × String)))
    (embed : Option (List ℝ)) (freshId : String) : List ChromaDoc × String :=
  let theId := id.getD freshId
  let md := metadata.getD []
  let vec := embed.getD (_simple_text_to_vector content)
  (collectionAdd coll ⟨theId, content, md, vec⟩, theId)

/-- Function `add(prompt, response)`: store `response` as content with metadata
`{"prompt": prompt}` and an auto-generated id, via `save_document`. -/
noncomputable def add (coll : List ChromaDoc) (prompt response : String)
    (freshId : String) : List ChromaDoc × String :=
  save_document coll none response (some [("prompt", prompt)]) none freshId

/-- The shape of Chroma's `Collection.query` response: each of `documents`,
`metadatas`, `distances` is a list with one inner list per query embedding;
the inner distance list may be `None`. -/
structure RawQueryResponse where
  documents : List (List String)
  metadatas : List (List (List (String × String)))
  distances : List (Option (List ℝ))

/-- A reshaped query result as built by `memory.query`'s result loop. -/
structure QueryResult where
  id : String
  content : String
  metadata : List (String × String)
  distance : Option ℝ

/-- The result-reshaping loop of `memory.query` (lines 99–114): guard on a
truthy response whose `documents` outer list is non-empty, then for each
returned document emit `id = metas[i].get("id", str(i))`, the content, the
metadata, and `float(dists[i]) if dists is not None else None` where `dists`
is the (possibly `None`) inner distance list. -/
def shapeResults (res : Option RawQueryResponse) : List QueryResult :=
  match res with
  | none => []
  | some r =>
    if 0 < r.documents.length then
      let docs := r.documents.getD 0 []
      let metas := r.metadatas.getD 0 []
      let dists := r.distances.getD 0 none
      (List.range docs.length).map fun i =>
        { id := ((metas.getD i []).lookup "id").getD (toString i)
          content := docs.getD i ""
          metadata := metas.getD i []
          distance := match dists with
                      | none => none
                      | some ds => some (ds.getD i 0) }
    else []

/-- Cosine distance, the metric configured for the collection
(`{"hnsw:space": "cosine"}`): one minus the cosine similarity. -/
noncomputable def cosineDistance (u v : List ℝ) : ℝ :=
  1 - (List.zipWith (· * ·) u v).sum /
      (Real.sqrt ((u.map fun x => x * x).sum) * Real.sqrt ((v.map fun x => x * x).sum))

/-- Modelled from the spec: the backing Chroma collection's nearest-neighbour
search is not part of this repository (spec §4.2: the store "returns up to
`top_k` nearest neighbors by the collection's configured distance metric
(cosine distance in this design), ascending by distance. `top_k ≤ 0` returns
empty. Querying an empty collection returns empty, not an error.").  The
records sorted ascending by cosine distance to the query vector are truncated
to `n_results` and returned in Chroma's one-inner-list-per-query shape. -/
noncomputable def collectionQuery (coll : List ChromaDoc) (qvec : List ℝ)
    (n_results : Int) : Option RawQueryResponse :=
  let sorted := coll.mergeSort fun a b =>
    decide (cosineDistance qvec a.embedding ≤ cosineDistance qvec b.embedding)
  let chosen := sorted.take n_results.toNat
  some { documents := [chosen.map fun d => d.content]
         metadatas := [chosen.map fun d => d.metadata]
         distances := [some (chosen.map fun d => cosineDistance qvec d.embedding)] }

/-- Function `query(query_text, top_k)`: embed the query text with the fallback
embedding, query the collection, and reshape the raw response. -/
noncomputable def query (coll : List ChromaDoc) (query_text : String)
    (top_k : Int) : List QueryResult :=
  let qvec := _simple_text_to_vector query_text
  shapeResults (collectionQuery coll qvec top_k)

end memory

/-! ## The style analyzer (`app/services/analyzer.py`)

`_analyze` consumes dicts `{id, content, metadata}` reading only
`doc.get("content", "")`, and returns a dict: for empty input the sentinel
`{"summary": "no_docs", "word_freq": {}, "avg_length": 0}`, otherwise a dict
with keys `avg_length_words`, `median_length_words`, `most_common_words`,
`common_openings`.  The union of both key sets is modelled as a structure of
`Option` fields, `none` marking an absent key. -/

namespace analyzer

/-- An input document as far as `_analyze` reads it: a dict whose `content`
key may be absent (`doc.get("content", "")` supplies the default). -/
structure AnalyzerDoc where
  content : Option String
deriving Repr, DecidableEq

/-- Python `doc.get("content", "")`. -/
def docText (d : AnalyzerDoc) : String := d.content.getD ""

/-- A word character in the sense of `\w`: alphanumeric or underscore (the
model covers the ASCII range; the claims under verification use ASCII text). -/
def isWordChar (c : Char) : Bool := c.isAlphanum || c == '_'

/-- Accumulator pass for `re.findall(r"\w+", ·)`: collect maximal runs of word
characters (`acc` holds the current run, reversed). -/
def tokenizeGo : List Char → List Char → List String
  | [], acc => if acc.isEmpty then [] else [String.mk acc.reverse]
  | c :: cs, acc =>
    if isWordChar c then tokenizeGo cs (c :: acc)
    else if acc.isEmpty then tokenizeGo cs []
    else String.mk acc.reverse :: tokenizeGo cs []

/-- Python `re.findall(r"\w+", text.lower())`: the maximal word-character runs of the
lowercased text. -/
def findallWords (text : String) : List String :=
  tokenizeGo (text.data.map Char.toLower) []

/-- One `Counter` update, preserving first-seen (insertion) order
of keys, as Python's `Counter` does. -/
def counterBump (l : List (String × Nat)) (w : String) : List (String × Nat) :=
  match l with
  | [] => [(w, 1)]
  | (k, c) :: rest => if k == w then (k, c + 1) :: rest else (k, c) :: counterBump rest w

/-- Python `Counter.update(ws)`. -/
def counterUpdate (l : List (String × Nat)) (ws : List String) : List (String × Nat) :=
  ws.foldl counterBump l

/-- Python `Counter.most_common(n)`: the `n` entries of largest count, in descending
count order, ties kept in insertion order (`heapq.nlargest` is a stable
descending sort followed by truncation). -/
def mostCommon (l : List (String × Nat)) (n : Nat) : List (String × Nat) :=
  (l.mergeSort fun a b => b.2 ≤ a.2).take n

/-- The dict returned by `_analyze`: `none` fields model absent keys.  Counts
are `Nat`; `avg_length_words` (a Python float, exact here) is `ℚ`. -/
structure StyleProfile where
  summary : Option String
  word_freq : Option (List (String × Nat))
  avg_length : Option ℚ
  avg_length_words : Option ℚ
  median_length_words : Option Nat
  most_common_words : Option (List (String × Nat))
  common_openings : Option (List (String × Nat))
deriving Repr, DecidableEq

/-- Function `_analyze(documents)` (lines 30–57): empty input yields the sentinel dict;
otherwise tokenize each document, accumulate per-document lengths, the global
word counter and the opening-phrase (first 20 words, space-joined) counter,
and emit average, median (`sorted(lengths)[len(lengths)//2]`), top-50 words
and top-5 openings. -/
def _analyze (documents : List AnalyzerDoc) : StyleProfile :=
  if documents.isEmpty then
    { summary := some "no_docs", word_freq := some [], avg_length := some 0,
      avg_length_words := none, median_length_words := none,
      most_common_words := none, common_openings := none }
  else
    let perDoc := documents.map fun d => findallWords (docText d)
    let lengths := perDoc.map List.length
    let word_counter := perDoc.foldl counterUpdate []
    let opening_phrases := perDoc.foldl
      (fun c ws => counterBump c (String.intercalate " " (ws.take 20))) []
    { summary := none, word_freq := none, avg_length := none,
      avg_length_words := some ((lengths.sum : ℚ) / (lengths.length : ℚ)),
      median_length_words := some (lengths.mergeSort.getD (lengths.length / 2) 0),
      most_common_words := some (mostCommon word_counter 50),
      common_openings := some (mostCommon opening_phrases 5) }

end analyzer

/-! ## The generation routes (`app/routes/generate.py`)

Both routes follow the same state-relevant shape: build a prompt, await the
LLM call (which may fail), and on success run the "update memory + history"
block.  Two facts of the source matter here:

* `memory.query(...)` (line 29/89) and `memory.add(...)` (line 60/118) are
  **`async` coroutine functions invoked without `await`**: the call expression
  only constructs a coroutine object which is never run, so neither executes —
  in particular `memory.add` never writes the store;
* `history.append(...)` and the trim `if len(history) > MAX_HISTORY:
  history.pop(0)` are plain synchronous list mutations and do run.

The outbound LLM call is modelled by its outcome `genResult : Option String`
(`none` = the call raised, diverting to the `except` handler with an HTTP 500
and no further statements of the `try` block executed). -/

def MAX_HISTORY : Nat := 20

/-- The history update of one successful request (lines 61–65 / 119–123):
`history.append(entry)` then `if len(history) > MAX_HISTORY: history.pop(0)`. -/
def historyStep (history : List String) (entry : String) : List String :=
  let h := history ++ [entry]
  if MAX_HISTORY < h.length then h.tail else h

/-- The process state the routes touch: the Chroma collection and the
per-user history maps (`defaultdict(list)`, modelled as association lists
read with default `[]`). -/
structure AppState where
  store : List memory.ChromaDoc
  blog_histories : List (String × List String)
  social_histories : List (String × List String)

/-- A `defaultdict` read: a missing user has the empty history. -/
def getHistory (hs : List (String × List String)) (u : String) : List String :=
  (hs.lookup u).getD []

/-- Write back a user's (mutated-in-place in Python) history list. -/
def setHistory (hs : List (String × List String)) (u : String) (l : List String) :
    List (String × List String) :=
  if hs.any fun p => p.1 == u then hs.map fun p => if p.1 == u then (p.1, l) else p
  else hs ++ [(u, l)]

/-- Route handler `generate_blog_route`: on generation failure (`genResult = none`) the
handler raises HTTP 500 out of the `try` block, leaving the state untouched.
On success the history is appended and trimmed; the store is **not** written,
because `memory.add(f"{user_id}:{prompt}", text)` is an un-awaited coroutine
construction (line 60) that never executes. -/
def generate_blog_route (st : AppState) (user_id prompt : String)
    (genResult : Option String) : AppState × Option String :=
  match genResult with
  | none => (st, none)
  | some text =>
    let entry := "User: " ++ prompt ++ "\nAI: " ++ text
    let h := historyStep (getHistory st.blog_histories user_id) entry
    ({ st with blog_histories := setHistory st.blog_histories user_id h }, some text)

/-- Route handler `generate_social_route`: identical state behaviour on the social channel
(un-awaited `memory.add` at line 118; history update at lines 119–123). -/
def generate_social_route (st : AppState) (user_id prompt : String)
    (genResult : Option String) : AppState × Option String :=
  match genResult with
  | none => (st, none)
  | some text =>
    let entry := "User: " ++ prompt ++ "\nAI: " ++ text
    let h := historyStep (getHistory st.social_histories user_id) entry
    ({ st with social_histories := setHistory st.social_histories user_id h }, some text)

/-- What an awaited `memory.add` would have done to the store — the
persistence step the spec's control flow (§2, §5) prescribes after a
successful generation.  Used to state how the routes diverge from it. -/
noncomputable def specPersistExchange (store : List memory.ChromaDoc)
    (user_id prompt text freshId : String) : List memory.ChromaDoc :=
  (memory.add store (user_id ++ ":" ++ prompt) text freshId).1

/-- The L2 norm of a real vector. -/
noncomputable def l2norm (v : List ℝ) : ℝ := Real.sqrt ((v.map fun x => x * x).sum)

/-! ## Supporting lemmas -/

theorem sha256Bytes_length (msg : List Nat) : (sha256Bytes msg).length = 32 := by
  simp [sha256Bytes, wordBytes]

theorem tiledDigest_length (t : String) : (memory.tiledDigest t).length = 1536 := by
  have h := sha256Bytes_length (utf8Encode t)
  simp only [memory.tiledDigest, h]
  rw [if_pos (by norm_num)]
  rw [List.length_take, List.length_flatten, List.map_replicate, h]
  norm_num [List.sum_const_nat]

theorem sumSq_cons (b : Nat) (l : List Nat) :
    memory.sumSq (b :: l) = b * b + memory.sumSq l := by
  simp [memory.sumSq]

theorem sum_sq_map_div (l : List Nat) (c : ℝ) :
    ((l.map fun b : Nat => (b : ℝ) / c).map fun x => x * x).sum
      = (memory.sumSq l : ℝ) / (c * c) := by
  induction l with
  | nil => simp [memory.sumSq]
  | cons b l ih =>
    simp only [List.map_cons, List.sum_cons, ih, sumSq_cons]
    rw [div_mul_div_comm, div_add_div_same]
    push_cast
    ring_nf

theorem l2norm_map_div (l : List Nat) {c : ℝ} (hc : 0 ≤ c) :
    l2norm (l.map fun b : Nat => (b : ℝ) / c) = Real.sqrt (memory.sumSq l) / c := by
  unfold l2norm
  rw [sum_sq_map_div, Real.sqrt_div (by positivity) (c * c), Real.sqrt_mul_self hc]

theorem l2norm_simple_text_to_vector (t : String) :
    l2norm (memory._simple_text_to_vector t)
      = Real.sqrt (memory.sumSq (memory.tiledDigest t))
        / (Real.sqrt (memory.sumSq (memory.tiledDigest t)) + 1e-8) := by
  simp only [memory._simple_text_to_vector]
  exact l2norm_map_div _ (by positivity)

theorem ratio_close_one {s : ℝ} (hs : 1 ≤ s) :
    |s / (s + 1e-8) - 1| ≤ 1e-8 := by
  have he : (0:ℝ) < 1e-8 := by norm_num
  have h1 : (0:ℝ) < s + 1e-8 := by linarith
  have h2 : s / (s + 1e-8) - 1 = -(1e-8 / (s + 1e-8)) := by
    field_simp
  rw [h2, abs_neg, abs_of_nonneg (by positivity), div_le_iff₀ h1]
  nlinarith

theorem one_le_sqrt_sumSq {l : List Nat} (h : 1 ≤ memory.sumSq l) :
    1 ≤ Real.sqrt (memory.sumSq l) := by
  rw [show (1:ℝ) = Real.sqrt 1 by simp]
  exact Real.sqrt_le_sqrt (by exact_mod_cast h)

theorem simple_vec_length (t : String) :
    (memory._simple_text_to_vector t).length = 1536 := by
  simp only [memory._simple_text_to_vector]
  rw [List.length_map, tiledDigest_length]

theorem simple_vec_norm_close {t : String}
    (h : 1 ≤ memory.sumSq (memory.tiledDigest t)) :
    |l2norm (memory._simple_text_to_vector t) - 1| ≤ 1e-8 := by
  rw [l2norm_simple_text_to_vector]
  exact ratio_close_one (one_le_sqrt_sumSq h)

theorem historyStep_length_le (h : List String) (e : String)
    (hh : h.length ≤ 20) : (historyStep h e).length ≤ 20 := by
  simp only [historyStep, MAX_HISTORY]
  split
  · simp only [List.length_tail, List.length_append, List.length_cons, List.length_nil]
    omega
  · rename_i hc
    simp only [List.length_append, List.length_cons, List.length_nil] at hc ⊢
    omega

theorem foldl_historyStep (es : List String) :
    ∀ h : List String, h.length ≤ 20 →
      es.foldl historyStep h = (h ++ es).drop (h.length + es.length - 20) := by
  induction es with
  | nil =>
    intro h hh
    simp only [List.foldl_nil, List.append_nil, List.length_nil]
    rw [show h.length + 0 - 20 = 0 from by omega, List.drop_zero]
  | cons e es ih =>
    intro h hh
    simp only [List.foldl_cons]
    rcases Nat.lt_or_ge h.length 20 with hl | hl
    · have hstep : historyStep h e = h ++ [e] := by
        simp only [historyStep, MAX_HISTORY]
        rw [if_neg (by simp only [List.length_append, List.length_cons, List.length_nil]; omega)]
      rw [hstep, ih (h ++ [e])
          (by simp only [List.length_append, List.length_cons, List.length_nil]; omega),
        List.append_assoc, List.singleton_append]
      congr 1
      simp only [List.length_append, List.length_cons, List.length_nil]
      omega
    · have h20 : h.length = 20 := by omega
      have hstep : historyStep h e = (h ++ [e]).drop 1 := by
        simp only [historyStep, MAX_HISTORY, List.drop_one]
        rw [if_pos (by simp only [List.length_append, List.length_cons, List.length_nil]; omega)]
      have hlen : ((h ++ [e]).drop 1).length = 20 := by
        simp only [List.length_drop, List.length_append, List.length_cons, List.length_nil]
        omega
      rw [hstep, ih _ (le_of_eq hlen), hlen]
      have hsplit : ((h ++ [e]) ++ es).drop 1 = (h ++ [e]).drop 1 ++ es := by
        rw [List.drop_append_eq_append_drop,
          show 1 - (h ++ [e]).length = 0 from by
            simp only [List.length_append, List.length_cons, List.length_nil]; omega,
          List.drop_zero]
      rw [← hsplit, List.drop_drop, List.append_assoc, List.singleton_append]
      congr 1
      simp only [List.length_append, List.length_cons, List.length_nil]
      omega

/-! ## The claims -/

/-- Claim C6: The embedding function is pure and deterministic: it is a function
of the text alone (SHA-256 of the UTF-8 bytes, tiled and normalized), so two
calls on equal texts yield identical vectors, with no dependence on any state
other than the input text. -/
theorem c6_embedding_deterministic (t₁ t₂ : String) (h : t₁ = t₂) :
    memory._simple_text_to_vector t₁ = memory._simple_text_to_vector t₂ := by
  rw [h]

theorem c6_embedding_deterministic_witness :
    memory._simple_text_to_vector "inkcore" = memory._simple_text_to_vector "inkcore" :=
  c6_embedding_deterministic "inkcore" "inkcore" rfl

/-- Claim C7: For every text `t` (the witness instantiates the empty string),
the embedding function returns a vector of length 1536 whose L2 norm is within
`1e-8` of 1 — the digest bytes are tiled to length 1536 and divided by their
L2 norm plus `1e-8`.  The norm bound requires the SHA-256 digest of `t` to be
nonzero (`1 ≤ sumSq`), which holds for every input whose digest is not the
all-zero string — no such input is known, and exhibiting one would break
SHA-256 preimage resistance. -/
theorem c7_embedding_total_normalized (t : String)
    (h : 1 ≤ memory.sumSq (memory.tiledDigest t)) :
    (memory._simple_text_to_vector t).length = 1536 ∧
    |l2norm (memory._simple_text_to_vector t) - 1| ≤ 1e-8 :=
  ⟨simple_vec_length t, simple_vec_norm_close h⟩

set_option maxRecDepth 100000 in
theorem c7_embedding_total_normalized_witness :
    1 ≤ memory.sumSq (memory.tiledDigest "") ∧
    (memory._simple_text_to_vector "").length = 1536 ∧
    |l2norm (memory._simple_text_to_vector "") - 1| ≤ 1e-8 :=
  ⟨by decide, c7_embedding_total_normalized "" (by decide)⟩

/-- The median field of `_analyze` on non-empty input, as computed by the
source: `sorted(lengths)[len(lengths) // 2]`. -/
theorem analyze_median_eq (docs : List analyzer.AnalyzerDoc) (hne : docs ≠ []) :
    (analyzer._analyze docs).median_length_words
      = some (((docs.map fun d =>
            (analyzer.findallWords (analyzer.docText d)).length).mergeSort).getD
          (docs.length / 2) 0) := by
  cases docs with
  | nil => exact absurd rfl hne
  | cons a l =>
    simp only [analyzer._analyze, List.isEmpty_cons, Bool.false_eq_true, if_false,
      List.map_map, List.length_map]
    rfl

/-- Claim C2, counterexample: The empty-input sentinel of the style analysis is
not a profile with `avg_length_words = 0` and empty `most_common_words` /
`common_openings` lists: those keys are absent from the returned dict. -/
theorem c2_sentinel_shape_counterexample :
    ¬ ((analyzer._analyze []).avg_length_words = some 0 ∧
       (analyzer._analyze []).most_common_words = some [] ∧
       (analyzer._analyze []).common_openings = some []) := by
  decide

/-- Claim C2, amended: For the empty document sequence, the style analysis
returns — without failing — exactly the sentinel dict
`{"summary": "no_docs", "word_freq": {}, "avg_length": 0}`; the keys
`avg_length_words`, `most_common_words` and `common_openings` are absent from
this sentinel rather than zero/empty. -/
theorem c2_empty_input_sentinel :
    analyzer._analyze []
      = { summary := some "no_docs", word_freq := some [], avg_length := some 0,
          avg_length_words := none, median_length_words := none,
          most_common_words := none, common_openings := none } := rfl

/-- Claim C10: For every non-empty document sequence, the style profile's median
document length equals the element at zero-based index `n / 2` of the sorted
sequence of per-document token counts — for even `n` the upper-middle element.
(`sortedL` is any ascending-sorted permutation of the token counts; such a
list is unique.) -/
theorem c10_median_upper_middle (docs : List analyzer.AnalyzerDoc)
    (hne : docs ≠ []) (sortedL : List Nat)
    (hperm : sortedL.Perm (docs.map fun d =>
      (analyzer.findallWords (analyzer.docText d)).length))
    (hsorted : sortedL.Sorted (· ≤ ·)) :
    (analyzer._analyze docs).median_length_words
      = some (sortedL.getD (docs.length / 2) 0) := by
  rw [analyze_median_eq docs hne]
  have hperm2 : sortedL.Perm ((docs.map fun d =>
      (analyzer.findallWords (analyzer.docText d)).length).mergeSort) :=
    hperm.trans (List.mergeSort_perm _ _).symm
  have hsort2 : List.Sorted (· ≤ ·) ((docs.map fun d =>
      (analyzer.findallWords (analyzer.docText d)).length).mergeSort) :=
    List.sorted_mergeSort' _
  rw [List.eq_of_perm_of_sorted hperm2 hsorted hsort2]

theorem c10_median_upper_middle_witness :
    (analyzer._analyze [⟨some "aa bb cc"⟩, ⟨some "dd"⟩]).median_length_words
      = some 3 := by
  simpa using c10_median_upper_middle [⟨some "aa bb cc"⟩, ⟨some "dd"⟩]
    (by simp) [1, 3] (by decide) (by decide)

/-- Claim C3: For every query text, the memory query with `top_k ≤ 0` returns
the empty result sequence without error, on any collection (in particular a
non-empty one): Chroma is asked for `n_results = top_k` neighbours, the store
returns no neighbours, and the reshaping loop over zero documents yields `[]`. -/
theorem c3_query_topk_nonpositive (coll : List memory.ChromaDoc) (t : String)
    (k : Int) (hk : k ≤ 0) (_hne : coll ≠ []) :
    memory.query coll t k = [] := by
  simp [memory.query, memory.shapeResults, memory.collectionQuery,
    Int.toNat_of_nonpos hk]

theorem c3_query_topk_nonpositive_witness :
    memory.query [⟨"d0", "c0", [("k", "v")], [1]⟩] "q" 0 = [] :=
  c3_query_topk_nonpositive [⟨"d0", "c0", [("k", "v")], [1]⟩] "q" 0
    (by decide) (by simp)

/-- Claim C9: For every raw store response and in-range result position `i`, the
reshaped result's `id` equals the metadata's `"id"` value when that key is
present and `str(i)` otherwise, and its `distance` is the store's reported
distance (as a float) when the store returned distances and null when it
returned none. -/
theorem c9_query_result_fields (r : memory.RawQueryResponse) (i : Nat)
    (hi : i < (r.documents.getD 0 []).length) :
    ((∀ v, ((r.metadatas.getD 0 []).getD i []).lookup "id" = some v →
        ((memory.shapeResults (some r)).getD i ⟨"", "", [], none⟩).id = v) ∧
      (((r.metadatas.getD 0 []).getD i []).lookup "id" = none →
        ((memory.shapeResults (some r)).getD i ⟨"", "", [], none⟩).id = toString i)) ∧
    ((∀ ds, r.distances.getD 0 none = some ds →
        ((memory.shapeResults (some r)).getD i ⟨"", "", [], none⟩).distance
          = some (ds.getD i 0)) ∧
      (r.distances.getD 0 none = none →
        ((memory.shapeResults (some r)).getD i ⟨"", "", [], none⟩).distance = none)) := by
  have hdocs : 0 < r.documents.length := by
    rcases hd : r.documents with _ | ⟨d0, ds⟩
    · rw [hd] at hi; simp at hi
    · simp
  have hkey : (memory.shapeResults (some r)).getD i ⟨"", "", [], none⟩ =
      { id := (((r.metadatas.getD 0 []).getD i []).lookup "id").getD (toString i),
        content := (r.documents.getD 0 []).getD i "",
        metadata := (r.metadatas.getD 0 []).getD i [],
        distance := match r.distances.getD 0 none with
                    | none => none
                    | some ds => some (ds.getD i 0) } := by
    simp only [memory.shapeResults]
    rw [if_pos hdocs, List.getD_eq_getElem?_getD, List.getElem?_map,
      List.getElem?_range hi]
    simp
  refine ⟨⟨?_, ?_⟩, ?_, ?_⟩
  · intro v hv; rw [hkey]; simp only [hv, Option.getD_some]
  · intro hv; rw [hkey]; simp only [hv, Option.getD_none]
  · intro ds hds; rw [hkey]; simp only [hds]
  · intro hds; rw [hkey]; simp only [hds]

/-- A concrete raw store response used to instantiate `c9_query_result_fields`:
two documents, the first with an `"id"` metadata key, with reported distances. -/
def exampleRaw : memory.RawQueryResponse :=
  ⟨[["a", "b"]], [[[("id", "X")], []]], [some [1, 2]]⟩

theorem c9_query_result_fields_witness :
    ((memory.shapeResults (some exampleRaw)).getD 0 ⟨"", "", [], none⟩).id = "X" ∧
    ((memory.shapeResults (some exampleRaw)).getD 0 ⟨"", "", [], none⟩).distance
      = some 1 := by
  have h := c9_query_result_fields exampleRaw 0 (by decide)
  exact ⟨h.1.1 "X" rfl, h.2.1 [1, 2] rfl⟩

/-- Claim C5, counterexample: `save_document` on an id already in the
collection does **not** replace the existing record: saving content `"new"`
under the existing id `"x"` leaves the old record (content `"old"`) as the
only record with that id — the collection's `add` skips the duplicate. -/
theorem c5_add_existing_id_counterexample :
    ¬ ∃ d ∈ (memory.save_document [⟨"x", "old", [], [1]⟩] (some "x") "new"
        none (some [1]) "fresh").1, d.id = "x" ∧ d.content = "new" := by
  have hst : (memory.save_document [⟨"x", "old", [], [1]⟩] (some "x") "new"
      none (some [1]) "fresh").1 = [⟨"x", "old", [], [1]⟩] := by
    simp [memory.save_document, memory.collectionAdd]
  rw [hst]
  rintro ⟨d, hd, hid, hcontent⟩
  rw [List.mem_singleton] at hd
  subst hd
  exact absurd hcontent (by decide)

/-- Claim C5, amended: For every id that already exists in the collection,
`save_document` with that id leaves the collection unchanged — the underlying
Chroma `add` does not replace duplicate ids — while still returning the id it
used; when the caller passes no id, the returned id is the auto-generated one. -/
theorem c5_save_existing_id_keeps_old (coll : List memory.ChromaDoc)
    (id content : String) (md : Option (List (String × String)))
    (embed : Option (List ℝ)) (freshId : String)
    (hmem : (coll.any fun e => e.id == id) = true) :
    (memory.save_document coll (some id) content md embed freshId).1 = coll ∧
    (memory.save_document coll (some id) content md embed freshId).2 = id ∧
    ∀ c₂ : List memory.ChromaDoc, ∀ content₂ md₂ embed₂ freshId₂,
      (memory.save_document c₂ none content₂ md₂ embed₂ freshId₂).2 = freshId₂ := by
  refine ⟨?_, rfl, fun _ _ _ _ _ => rfl⟩
  simp [memory.save_document, memory.collectionAdd, hmem]

theorem c5_save_existing_id_keeps_old_witness :
    (memory.save_document [⟨"x", "old", [], [1]⟩] (some "x") "n" none none "f").1
        = [⟨"x", "old", [], [1]⟩] ∧
    (memory.save_document [⟨"x", "old", [], [1]⟩] (some "x") "n" none none "f").2
        = "x" := by
  have h := c5_save_existing_id_keeps_old [⟨"x", "old", [], [1]⟩] "x" "n"
    none none "f" (by decide)
  exact ⟨h.1, h.2.1⟩

/-- Claim C4, counterexample: Not every document stored by a save operation has
a vector of constant length 1536 with L2 norm within epsilon of 1: a
caller-supplied embedding is stored verbatim with no validation — saving with
`embed = [2, 0, 0]` stores a vector of length 3 whose L2 norm is 2
(`|‖v‖ − 1| = 1`). -/
theorem c4_stored_vector_invariant_counterexample :
    ∃ d ∈ (memory.save_document [] (some "x") "c" none (some [2, 0, 0]) "f").1,
      d.embedding.length ≠ 1536 ∧ |l2norm d.embedding - 1| = 1 := by
  have hst : (memory.save_document [] (some "x") "c" none (some [2, 0, 0]) "f").1
      = [⟨"x", "c", [], [2, 0, 0]⟩] := by
    simp [memory.save_document, memory.collectionAdd]
  rw [hst]
  refine ⟨⟨"x", "c", [], [2, 0, 0]⟩, List.mem_singleton_self _, by simp, ?_⟩
  have hnorm : l2norm [2, 0, 0] = 2 := by
    unfold l2norm
    simp only [List.map_cons, List.map_nil, List.sum_cons, List.sum_nil]
    norm_num
    rw [show (4 : ℝ) = 2 ^ 2 by norm_num]
    exact Real.sqrt_sq (by norm_num)
  show |l2norm [2, 0, 0] - 1| = 1
  rw [hnorm]
  norm_num

/-- Claim C4, amended: Every document stored by a save operation without a
caller-supplied embedding carries the fallback embedding of its content, which
has length 1536 and L2 norm within `1e-8` of 1 (for content whose SHA-256
digest is nonzero); documents already in the collection are untouched.
Caller-supplied vectors, by the counterexample, are stored unvalidated. -/
theorem c4_fallback_vector_invariant (coll : List memory.ChromaDoc)
    (id : Option String) (content : String)
    (md : Option (List (String × String))) (freshId : String)
    (h : 1 ≤ memory.sumSq (memory.tiledDigest content))
    (d : memory.ChromaDoc)
    (hd : d ∈ (memory.save_document coll id content md none freshId).1) :
    d ∈ coll ∨
      (d.embedding = memory._simple_text_to_vector content ∧
       d.embedding.length = 1536 ∧ |l2norm d.embedding - 1| ≤ 1e-8) := by
  simp only [memory.save_document, memory.collectionAdd, Option.getD_none] at hd
  split at hd
  · exact Or.inl hd
  · rcases List.mem_append.mp hd with h1 | h2
    · exact Or.inl h1
    · right
      rw [List.mem_singleton] at h2
      subst h2
      exact ⟨rfl, simple_vec_length content, simple_vec_norm_close h⟩

set_option maxRecDepth 100000 in
theorem c4_fallback_vector_invariant_witness :
    (⟨"x", "a", [], memory._simple_text_to_vector "a"⟩ : memory.ChromaDoc) ∈
        ([] : List memory.ChromaDoc) ∨
      ((⟨"x", "a", [], memory._simple_text_to_vector "a"⟩ : memory.ChromaDoc).embedding
          = memory._simple_text_to_vector "a" ∧
        (⟨"x", "a", [], memory._simple_text_to_vector "a"⟩ :
            memory.ChromaDoc).embedding.length = 1536 ∧
        |l2norm (⟨"x", "a", [], memory._simple_text_to_vector "a"⟩ :
            memory.ChromaDoc).embedding - 1| ≤ 1e-8) :=
  c4_fallback_vector_invariant [] (some "x") "a" none "f" (by decide)
    ⟨"x", "a", [], memory._simple_text_to_vector "a"⟩
    (by simp [memory.save_document, memory.collectionAdd])

/-- Claim C8: The per-(user, channel) history is bounded: the per-request update
(append then trim) preserves `len ≤ 20`, and appending more than 20 entries
starting from an empty history retains exactly 20 entries with the oldest
dropped first (the retained list is the suffix of the most recent 20). -/
theorem c8_history_capacity_fifo :
    (∀ h e, h.length ≤ 20 → (historyStep h e).length ≤ 20) ∧
    ∀ es : List String, 20 < es.length →
      (es.foldl historyStep []).length = 20 ∧
      es.foldl historyStep [] = es.drop (es.length - 20) := by
  refine ⟨historyStep_length_le, fun es hes => ?_⟩
  have h := foldl_historyStep es [] (by simp)
  simp only [List.nil_append, List.length_nil, Nat.zero_add] at h
  exact ⟨by rw [h, List.length_drop]; omega, h⟩

theorem c8_history_capacity_fifo_witness :
    (historyStep [] "a").length ≤ 20 ∧
    ((List.replicate 25 "x").foldl historyStep []).length = 20 :=
  ⟨c8_history_capacity_fifo.1 [] "a" (by decide),
   (c8_history_capacity_fifo.2 (List.replicate 25 "x") (by simp)).1⟩

/-- Claim C1, evaluation at the failing input: On a generation failure both
routes leave the state unchanged, as the claim requires.  But on a
**successful** generation the claim fails: the history is appended, yet the
Vector Store is *not* written — `memory.add(f"{user_id}:{prompt}", text)` at
lines 60/118 of `app/routes/generate.py` builds a coroutine that is never
awaited, so no document is ever persisted (the store stays empty), whereas an
awaited `memory.add` (last conjunct) would have added one record. -/
theorem c1_persistence_iff_success_refuted :
    generate_blog_route ⟨[], [], []⟩ "u" "p" none = (⟨[], [], []⟩, none) ∧
    generate_social_route ⟨[], [], []⟩ "u" "p" none = (⟨[], [], []⟩, none) ∧
    (generate_blog_route ⟨[], [], []⟩ "u" "p" (some "out")).1.store = [] ∧
    (generate_blog_route ⟨[], [], []⟩ "u" "p" (some "out")).1.blog_histories
        = [("u", ["User: p\nAI: out"])] ∧
    (generate_social_route ⟨[], [], []⟩ "u" "p" (some "out")).1.store = [] ∧
    (generate_social_route ⟨[], [], []⟩ "u" "p" (some "out")).1.social_histories
        = [("u", ["User: p\nAI: out"])] ∧
    (specPersistExchange [] "u" "p" "out" "f").length = 1 :=
  ⟨rfl, rfl, rfl, rfl, rfl, rfl, rfl⟩

example : sha256Bytes [] =
    [227, 176, 196, 66, 152, 252, 28, 20, 154, 251, 244, 200,
     153, 111, 185, 36, 39, 174, 65, 228, 100, 155, 147, 76,
     164, 149, 153, 27, 120, 82, 184, 85] := by decide

example : sha256Bytes (utf8Encode "abc") =
    [186, 120, 22, 191, 143, 1, 207, 234, 65, 65, 64, 222,
     93, 174, 34, 35, 176, 3, 97, 163, 150, 23, 122, 156,
     180, 16, 255, 97, 242, 0, 21, 173] := by decide
